import Mathlib

/-!
Shallow embedding of the `agentic_rag` application of the repository
(`src/apps/agentic_rag/src/OraDBVectorStore.py` and
`src/apps/agentic_rag/agent_cli.py`) and proofs of the specification
claims about it.

The vector-store class is embedded as pure state-passing functions over
an explicit `OraDB` state; exceptions (`ValueError`) become
`Except String`; the external database and the `OracleVS` library calls
are modelled by table contents held in the state, an event log of the
store operations and SQL statements issued, and an oracle parameter for
the library-internal similarity search.
-/

namespace AgenticRag

/-- A Python value as it can appear in chunk metadata or query results:
strings, ints, floats (carried by their display string: no float
arithmetic happens anywhere in the source), bools, `None`, lists,
dicts, and any other object carried by its `str()` form. -/
inductive PyVal where
  | VStr (s : String)
  | VInt (i : Int)
  | VFloat (r : String)
  | VBool (b : Bool)
  | VNone
  | VList (l : List PyVal)
  | VDict (d : List (String × PyVal))
  | VOther (s : String)

/-- A Python `dict` with string keys, in insertion order. -/
abbrev Metadata := List (String × PyVal)

/-- A single-quote character as a string (used by the Python `repr` model). -/
def sq : String := String.singleton (Char.ofNat 39)

mutual

/-- Model of Python `repr` on `PyVal` (string escaping inside reprs is
not modelled; floats and other objects carry their own display form). -/
def pyRepr : PyVal → String
  | .VStr s => sq ++ s ++ sq
  | .VInt i => toString i
  | .VFloat r => r
  | .VBool b => if b then "True" else "False"
  | .VNone => "None"
  | .VList l => "[" ++ pyReprSeq l ++ "]"
  | .VDict d => "\x7b" ++ pyReprPairs d ++ "\x7d"
  | .VOther s => s

/-- Comma-separated reprs of the elements of a list. -/
def pyReprSeq : List PyVal → String
  | [] => ""
  | [v] => pyRepr v
  | v :: rest => pyRepr v ++ ", " ++ pyReprSeq rest

/-- Comma-separated `key: value` reprs of the items of a dict. -/
def pyReprPairs : List (String × PyVal) → String
  | [] => ""
  | [(k, v)] => sq ++ k ++ sq ++ ": " ++ pyRepr v
  | (k, v) :: rest => sq ++ k ++ sq ++ ": " ++ pyRepr v ++ ", " ++ pyReprPairs rest

end

/-- Model of Python `str`: identical to `repr` except on strings. -/
def pyStr : PyVal → String
  | .VStr s => s
  | v => pyRepr v

/-- Python `dict.get(k)`: the value at the first matching key, if any. -/
def dictGet (d : List (String × α)) (k : String) : Option α :=
  match d with
  | [] => none
  | (kk, v) :: rest => if k = kk then some v else dictGet rest k

/-- Replace the value stored at key `k` (keys of our store dicts are
fixed at construction, so no insertion case is needed). -/
def dictSet : List (String × α) → String → α → List (String × α)
  | [], _, _ => []
  | (kk, vv) :: rest, k, v =>
    if kk = k then (k, v) :: dictSet rest k v
    else (kk, vv) :: dictSet rest k v

/-- A row of a collection's backing table, as the `OracleVS` handle
stores it: a library-generated id, the chunk text, and the (sanitized)
metadata. -/
structure StoredDoc where
  id : String
  text : String
  metadata : Metadata

/-- An `OracleVS` handle as constructed in `__init__`: the table it is
bound to, the distance strategy, and the current contents of that
table (the embedding vectors themselves are internal to the library
and never observed by this class). -/
structure OracleVS where
  table_name : String
  distance_strategy : String
  docs : List StoredDoc

/-- An observable effect of the class on the database: a raw SQL
statement executed on a cursor, a `store.add_texts` call, or a
`store.delete` call. -/
inductive Event where
  | sqlExec (stmt : String)
  | addTextsCall (collection : String) (texts : List String) (metadatas : List Metadata)
  | deleteCall (collection : String) (ids : List String)

/-- The state of an `OraDBVectorStore` instance: its `vector_stores`
dict (collection name to handle) and the log of effects issued so
far. -/
structure OraDB where
  vector_stores : List (String × OracleVS)
  log : List Event

/-- The fixed `self.collections` dict built in `__init__`. -/
def collections : List (String × String) :=
  [("pdf_documents", "PDFCollection"),
   ("web_documents", "WebCollection"),
   ("repository_documents", "RepoCollection"),
   ("general_knowledge", "GeneralCollection")]

/-- A document as returned by `OracleVS.similarity_search`. -/
structure Document where
  page_content : String
  metadata : Metadata

/-- The similarity-search oracle: what the `OracleVS` library returns
for a query, a result count `k` and a handle. Its internals (embedding,
indexing, ranking) are outside this repository. -/
abbrev SearchFn := String → Nat → OracleVS → List Document

/-- `OracleVS.add_texts`: appends one row per text, with the ids the
library generates for them. -/
def addTexts (s : OracleVS) (newIds : List String) (texts : List String)
    (metadatas : List Metadata) : OracleVS :=
  let newDocs := (newIds.zip (texts.zip metadatas)).map
    (fun p => { id := p.1, text := p.2.1, metadata := p.2.2 : StoredDoc })
  { s with docs := s.docs ++ newDocs }

/-- `OraDBVectorStore._sanitize_metadata`: the isinstance chain of the
source, applied to each item of the dict in order. -/
def _sanitize_metadata : Metadata → Metadata
  | [] => []
  | (key, value) :: rest =>
    (key, match value with
          | .VStr _ | .VInt _ | .VFloat _ | .VBool _ => value
          | .VList _ => .VStr (pyStr value)
          | .VNone => .VStr ""
          | v => .VStr (pyStr v)) :: _sanitize_metadata rest

/-- A chunk handed to the add methods: a dict with `text` and
`metadata` entries. -/
structure Chunk where
  text : String
  metadata : Metadata

/-- `OraDBVectorStore._add_chunks_to_collection`. `newIds` stands for
the ids `add_texts` generates internally. Raising `ValueError` is
modelled by `Except.error` carrying the message. -/
def _add_chunks_to_collection (db : OraDB) (newIds : List String)
    (chunks : List Chunk) (collection_name : String) : Except String OraDB :=
  if chunks.isEmpty then .ok db
  else
    match dictGet db.vector_stores collection_name with
    | none => .error ("Collection " ++ collection_name ++ " not found")
    | some store =>
      let texts := chunks.map (fun c => c.text)
      let metadatas := chunks.map (fun c => _sanitize_metadata c.metadata)
      .ok { vector_stores := dictSet db.vector_stores collection_name
              (addTexts store newIds texts metadatas),
            log := db.log ++ [Event.addTextsCall collection_name texts metadatas] }

/-- `add_pdf_chunks` (the `document_id` argument is unused in the source). -/
def add_pdf_chunks (db : OraDB) (newIds : List String) (chunks : List Chunk)
    (_document_id : String) : Except String OraDB :=
  _add_chunks_to_collection db newIds chunks "pdf_documents"

/-- `add_web_chunks` (the `source_id` argument is unused in the source). -/
def add_web_chunks (db : OraDB) (newIds : List String) (chunks : List Chunk)
    (_source_id : String) : Except String OraDB :=
  _add_chunks_to_collection db newIds chunks "web_documents"

/-- `add_general_knowledge` (the `source_id` argument is unused in the source). -/
def add_general_knowledge (db : OraDB) (newIds : List String) (chunks : List Chunk)
    (_source_id : String) : Except String OraDB :=
  _add_chunks_to_collection db newIds chunks "general_knowledge"

/-- `add_repo_chunks` (the `document_id` argument is unused in the source). -/
def add_repo_chunks (db : OraDB) (newIds : List String) (chunks : List Chunk)
    (_document_id : String) : Except String OraDB :=
  _add_chunks_to_collection db newIds chunks "repository_documents"

/-- `_query_collection`: an unknown collection returns `[]`; otherwise
each document of the similarity search becomes the dict
`\x7b"content": ..., "metadata": ...\x7d`. -/
def _query_collection (search : SearchFn) (db : OraDB) (collection_name : String)
    (query : String) (n_results : Nat) : List (List (String × PyVal)) :=
  match dictGet db.vector_stores collection_name with
  | none => []
  | some store =>
    (search query n_results store).map
      (fun doc => [("content", PyVal.VStr doc.page_content),
                   ("metadata", PyVal.VDict doc.metadata)])

/-- `query_pdf_collection`. -/
def query_pdf_collection (search : SearchFn) (db : OraDB) (query : String)
    (n_results : Nat) : List (List (String × PyVal)) :=
  _query_collection search db "pdf_documents" query n_results

/-- `query_web_collection`. -/
def query_web_collection (search : SearchFn) (db : OraDB) (query : String)
    (n_results : Nat) : List (List (String × PyVal)) :=
  _query_collection search db "web_documents" query n_results

/-- `query_general_collection`. -/
def query_general_collection (search : SearchFn) (db : OraDB) (query : String)
    (n_results : Nat) : List (List (String × PyVal)) :=
  _query_collection search db "general_knowledge" query n_results

/-- `query_repo_collection`. -/
def query_repo_collection (search : SearchFn) (db : OraDB) (query : String)
    (n_results : Nat) : List (List (String × PyVal)) :=
  _query_collection search db "repository_documents" query n_results

/-- `delete_documents`: unknown collection raises `ValueError`; with
`delete_all` the backing table is truncated by raw SQL (the `ids`
argument is never consulted); otherwise a truthy (non-empty) `ids`
list is deleted through the handle; otherwise nothing happens. -/
def delete_documents (db : OraDB) (collection_name : String)
    (ids : Option (List String)) (delete_all : Bool) : Except String OraDB :=
  match dictGet db.vector_stores collection_name with
  | none => .error ("Collection " ++ collection_name ++ " not found")
  | some store =>
    if delete_all then
      match dictGet collections collection_name with
      | some table_name =>
        .ok { vector_stores := dictSet db.vector_stores collection_name
                { store with docs := [] },
              log := db.log ++ [Event.sqlExec ("TRUNCATE TABLE " ++ table_name)] }
      | none => .ok db
    else
      match ids with
      | some l =>
        if l.isEmpty then .ok db
        else
          .ok { vector_stores := dictSet db.vector_stores collection_name
                  { store with docs := store.docs.filter (fun d => ! l.contains d.id) },
                log := db.log ++ [Event.deleteCall collection_name l] }
      | none => .ok db

/-- `get_collection_count`: `SELECT COUNT(*)` on the backing table;
unknown collection, or a failing query (table absent from the
database), returns 0. -/
def get_collection_count (db : OraDB) (collection_name : String) : Nat :=
  match dictGet collections collection_name with
  | none => 0
  | some _ =>
    match dictGet db.vector_stores collection_name with
    | none => 0
    | some store => store.docs.length

/-- `get_latest_chunk`: `SELECT text, metadata FROM table WHERE ROWNUM
<= 1` returns the first row of the table in scan order (modelled as
stored order); unknown collection, a failing query, or an empty table
returns the empty dict. -/
def get_latest_chunk (db : OraDB) (collection_name : String) : List (String × PyVal) :=
  match dictGet collections collection_name with
  | none => []
  | some _ =>
    match dictGet db.vector_stores collection_name with
    | none => []
    | some store =>
      match store.docs.head? with
      | none => []
      | some row => [("content", PyVal.VStr row.text),
                     ("metadata", PyVal.VDict row.metadata)]

/-- The `oracledb.connect` call issued by `__init__`, recording exactly
which keyword arguments were passed on each of the two code paths. -/
inductive ConnectCall where
  | noWallet (user : String) (password : String) (dsn : String)
  | withWallet (user : String) (password : String) (dsn : String)
      (config_dir : String) (wallet_location : String)
      (wallet_password : Option String)

/-- The `vector_stores` dict as the `for name, table in
self.collections.items()` loop of `__init__` builds it: one `OracleVS`
handle per collection, bound to that collection's table. -/
def initStores (pre : String → List StoredDoc) : List (String × OracleVS) :=
  collections.map (fun p =>
    (p.1, { table_name := p.2, distance_strategy := "EUCLIDEAN_DISTANCE",
            docs := pre p.2 : OracleVS }))

/-- `OraDBVectorStore.__init__`. `credentials` is the parsed content of
`config.yaml` as `_load_config` returns it (an absent file or a load
error gives `[]`); `pre` gives the pre-existing contents of each
database table the handles bind to. Returns the connect call made and
the constructed state, or the `ValueError` message raised before any
connection attempt. -/
def OraDBVectorStore_init (credentials : List (String × String))
    (pre : String → List StoredDoc) : Except String (ConnectCall × OraDB) :=
  let username := (dictGet credentials "ORACLE_DB_USERNAME").getD "ADMIN"
  let password := (dictGet credentials "ORACLE_DB_PASSWORD").getD ""
  let dsn := (dictGet credentials "ORACLE_DB_DSN").getD ""
  let wallet_path := dictGet credentials "ORACLE_DB_WALLET_LOCATION"
  let wallet_password := dictGet credentials "ORACLE_DB_WALLET_PASSWORD"
  if password = "" ∨ dsn = "" then
    .error ("Oracle DB credentials not found in config.yaml. " ++
      "Please set ORACLE_DB_USERNAME, ORACLE_DB_PASSWORD, and ORACLE_DB_DSN.")
  else
    let call :=
      match wallet_path with
      | none => ConnectCall.noWallet username password dsn
      | some wp =>
        if wp = "" then ConnectCall.noWallet username password dsn
        else ConnectCall.withWallet username password dsn wp wp wallet_password
    .ok (call, { vector_stores := initStores pre, log := [] })

/-! ## The interactive menu (`agent_cli.py`)

Each menu function is embedded as a pure function of the values the
user enters at its prompts and of the local filesystem, returning the
subprocess commands it launches and the error messages it prints. -/

/-- What a path names on the local filesystem. -/
inductive FType where
  | file
  | dir
deriving DecidableEq

/-- The local filesystem: `os.path.exists p` is `(fs p).isSome` and
`os.path.isdir p` is `fs p = some FType.dir`. -/
abbrev FS := String → Option FType

/-- The observable outcome of one pass through a menu function. -/
structure MenuOutcome where
  launched : List (List String)
  errors : List String

/-- `menu_process_pdfs`, given the selected option, the output path and
the input path or URL entered at the prompts. -/
def menu_process_pdfs (fs : FS) (choice : String) (output_file : String)
    (input_value : String) : MenuOutcome :=
  if choice = "0" then { launched := [], errors := [] }
  else if choice = "1" then
    if (fs input_value).isSome then
      { launched := [["python", "-m", "src.pdf_processor", "--input", input_value,
                      "--output", output_file]],
        errors := [] }
    else { launched := [], errors := ["File not found: " ++ input_value] }
  else if choice = "2" then
    if fs input_value = some FType.dir then
      { launched := [["python", "-m", "src.pdf_processor", "--input", input_value,
                      "--output", output_file]],
        errors := [] }
    else { launched := [], errors := ["Directory not found: " ++ input_value] }
  else if choice = "3" then
    { launched := [["python", "-m", "src.pdf_processor", "--input", input_value,
                    "--output", output_file]],
      errors := [] }
  else { launched := [], errors := [] }

/-- `menu_process_websites`. -/
def menu_process_websites (fs : FS) (choice : String) (output_file : String)
    (input_value : String) : MenuOutcome :=
  if choice = "0" then { launched := [], errors := [] }
  else if choice = "1" then
    { launched := [["python", "-m", "src.web_processor", "--input", input_value,
                    "--output", output_file]],
      errors := [] }
  else if choice = "2" then
    if (fs input_value).isSome then
      { launched := [["python", "-m", "src.web_processor", "--input", input_value,
                      "--output", output_file]],
        errors := [] }
    else { launched := [], errors := ["File not found: " ++ input_value] }
  else { launched := [], errors := [] }

/-- `menu_manage_vector_store`, given the selected option and the file
path or query entered at its prompt. -/
def menu_manage_vector_store (fs : FS) (choice : String)
    (input_value : String) : MenuOutcome :=
  if choice = "0" then { launched := [], errors := [] }
  else if choice = "1" then
    if (fs input_value).isSome then
      { launched := [["python", "-m", "src.store", "--add", input_value]],
        errors := [] }
    else { launched := [], errors := ["File not found: " ++ input_value] }
  else if choice = "2" then
    if (fs input_value).isSome then
      { launched := [["python", "-m", "src.store", "--add-web", input_value]],
        errors := [] }
    else { launched := [], errors := ["File not found: " ++ input_value] }
  else if choice = "3" then
    { launched := [["python", "-m", "src.store", "--query", input_value]],
      errors := [] }
  else { launched := [], errors := [] }

/-! ## Spec-side definitions and helper lemmas -/

/-- The sanitization rule exactly as the specification words it: values
that are a string, int, float, or bool pass through unchanged; a list
value is replaced by its string form `str(value)`; `None` is replaced
by the empty string; every value of any other type is replaced by
`str(value)`. -/
def specSanitizeValue : PyVal → PyVal
  | .VStr s => .VStr s
  | .VInt i => .VInt i
  | .VFloat r => .VFloat r
  | .VBool b => .VBool b
  | .VList l => .VStr (pyStr (.VList l))
  | .VNone => .VStr ""
  | v => .VStr (pyStr v)

/-- The source sanitizer agrees item-by-item with the spec's rule. -/
theorem sanitize_eq_spec (md : Metadata) :
    _sanitize_metadata md = md.map (fun kv => (kv.1, specSanitizeValue kv.2)) := by
  induction md with
  | nil => rfl
  | cons kv rest ih =>
    obtain ⟨k, v⟩ := kv
    cases v <;> simp [_sanitize_metadata, specSanitizeValue, ih]

/-- Reading back the key just overwritten by `dictSet`. -/
theorem dictGet_dictSet_same (d : List (String × α)) (k : String) (v : α) :
    dictGet (dictSet d k v) k = (dictGet d k).map (fun _ => v) := by
  induction d with
  | nil => rfl
  | cons p rest ih =>
    obtain ⟨pk, pv⟩ := p
    by_cases h : pk = k
    · subst h
      simp [dictSet, dictGet]
    · have hne : k ≠ pk := fun hk => h hk.symm
      simp [dictSet, dictGet, h, hne]
      exact ih

/-- `dictSet` leaves every other key untouched. -/
theorem dictGet_dictSet_other (d : List (String × α)) (k : String) (v : α)
    (k2 : String) (h : k2 ≠ k) :
    dictGet (dictSet d k v) k2 = dictGet d k2 := by
  induction d with
  | nil => rfl
  | cons p rest ih =>
    obtain ⟨pk, pv⟩ := p
    by_cases hp : pk = k
    · subst hp
      simp [dictSet, dictGet, h, ih]
    · simp [dictSet, dictGet, hp, ih]

/-! ## Claims -/

/-- C1: `_sanitize_metadata` keeps the keys of the mapping and rewrites
each value by the spec's rule (string/int/float/bool unchanged, a list
becomes `str(value)`, `None` becomes `""`, anything else becomes
`str(value)`), and `_add_chunks_to_collection` hands `add_texts`
exactly the sanitized metadata of each chunk. -/
theorem C1_sanitize_metadata_spec :
    (∀ md : Metadata,
      _sanitize_metadata md = md.map (fun kv => (kv.1, specSanitizeValue kv.2))) ∧
    (∀ md : Metadata,
      (_sanitize_metadata md).map Prod.fst = md.map Prod.fst) ∧
    (∀ (db : OraDB) (newIds : List String) (chunks : List Chunk)
       (collection_name : String) (dbout : OraDB),
      _add_chunks_to_collection db newIds chunks collection_name = .ok dbout →
      chunks ≠ [] →
      dbout.log = db.log ++
        [Event.addTextsCall collection_name (chunks.map (fun c => c.text))
          (chunks.map (fun c => _sanitize_metadata c.metadata))]) := by
  refine ⟨sanitize_eq_spec, ?_, ?_⟩
  · intro md
    rw [sanitize_eq_spec md]
    simp
  · intro db newIds chunks collection_name dbout h hne
    cases chunks with
    | nil => exact absurd rfl hne
    | cons c cs =>
      rw [_add_chunks_to_collection] at h
      simp only [List.isEmpty_cons, if_false, Bool.false_eq_true] at h
      cases hg : dictGet db.vector_stores collection_name with
      | none => rw [hg] at h; cases h
      | some store =>
        rw [hg] at h
        cases h
        rfl

/-- C1 witness: the rule evaluated on a concrete metadata mapping with
one value of each shape, and the add path evaluated on a concrete
store. -/
theorem C1_sanitize_metadata_spec_witness :
    _sanitize_metadata
        [("a", .VStr "x"), ("b", .VInt 3), ("c", .VBool true),
         ("d", .VList [.VInt 1, .VInt 2]), ("e", .VNone), ("f", .VOther "obj")] =
      [("a", .VStr "x"), ("b", .VInt 3), ("c", .VBool true),
       ("d", .VStr "[1, 2]"), ("e", .VStr ""), ("f", .VStr "obj")] := by
  rw [C1_sanitize_metadata_spec.1]
  rfl

/-- C2: with a non-empty password and DSN, `__init__` connects with
only user, password and dsn when the wallet path is absent or empty,
and otherwise additionally passes `config_dir`, `wallet_location`
(both the wallet path) and `wallet_password`; all values come from the
loaded configuration, with the username defaulting to `ADMIN`. -/
theorem C2_connection_paths (credentials : List (String × String))
    (pre : String → List StoredDoc)
    (hp : (dictGet credentials "ORACLE_DB_PASSWORD").getD "" ≠ "")
    (hd : (dictGet credentials "ORACLE_DB_DSN").getD "" ≠ "") :
    ((dictGet credentials "ORACLE_DB_WALLET_LOCATION" = none ∨
      dictGet credentials "ORACLE_DB_WALLET_LOCATION" = some "") →
      (OraDBVectorStore_init credentials pre).map Prod.fst =
        .ok (ConnectCall.noWallet
          ((dictGet credentials "ORACLE_DB_USERNAME").getD "ADMIN")
          ((dictGet credentials "ORACLE_DB_PASSWORD").getD "")
          ((dictGet credentials "ORACLE_DB_DSN").getD ""))) ∧
    (∀ wp, dictGet credentials "ORACLE_DB_WALLET_LOCATION" = some wp → wp ≠ "" →
      (OraDBVectorStore_init credentials pre).map Prod.fst =
        .ok (ConnectCall.withWallet
          ((dictGet credentials "ORACLE_DB_USERNAME").getD "ADMIN")
          ((dictGet credentials "ORACLE_DB_PASSWORD").getD "")
          ((dictGet credentials "ORACLE_DB_DSN").getD "")
          wp wp (dictGet credentials "ORACLE_DB_WALLET_PASSWORD"))) := by
  constructor
  · rintro (hw | hw) <;> simp [OraDBVectorStore_init, hw, hp, hd, Except.map]
  · intro wp hw hne
    simp [OraDBVectorStore_init, hw, hp, hd, hne, Except.map]

/-- C2 witness: one concrete configuration per connection path. -/
theorem C2_connection_paths_witness :
    (OraDBVectorStore_init
        [("ORACLE_DB_PASSWORD", "pw"), ("ORACLE_DB_DSN", "db_high")]
        (fun _ => [])).map Prod.fst =
      .ok (ConnectCall.noWallet "ADMIN" "pw" "db_high") ∧
    (OraDBVectorStore_init
        [("ORACLE_DB_USERNAME", "SCOTT"), ("ORACLE_DB_PASSWORD", "pw"),
         ("ORACLE_DB_DSN", "db_high"), ("ORACLE_DB_WALLET_LOCATION", "/wallet"),
         ("ORACLE_DB_WALLET_PASSWORD", "wpw")]
        (fun _ => [])).map Prod.fst =
      .ok (ConnectCall.withWallet "SCOTT" "pw" "db_high" "/wallet" "/wallet"
        (some "wpw")) := by
  constructor
  · exact (C2_connection_paths _ _ (by decide) (by decide)).1 (Or.inl rfl)
  · exact (C2_connection_paths _ _ (by decide) (by decide)).2 "/wallet" rfl (by decide)

/-- The username actually passed to `oracledb.connect`. -/
def ConnectCall.user : ConnectCall → String
  | .noWallet u _ _ => u
  | .withWallet u _ _ _ _ _ => u

/-- C3: the constructor declares exactly the four fixed collection
names, maps them to pairwise-distinct table names, builds one handle
per collection bound to that table, and issues no SQL statement (in
particular none creating the underlying tables). -/
theorem C3_fixed_collections :
    collections.map Prod.fst =
      ["pdf_documents", "web_documents", "repository_documents", "general_knowledge"] ∧
    (collections.map Prod.snd).Pairwise (fun a b => a ≠ b) ∧
    (∀ (credentials : List (String × String)) (pre : String → List StoredDoc)
       (call : ConnectCall) (db : OraDB),
      OraDBVectorStore_init credentials pre = .ok (call, db) →
      db.vector_stores.map Prod.fst = collections.map Prod.fst ∧
      (∀ p ∈ collections, dictGet db.vector_stores p.1 =
        some { table_name := p.2, distance_strategy := "EUCLIDEAN_DISTANCE",
               docs := pre p.2 }) ∧
      db.log = []) := by
  refine ⟨rfl, by decide, ?_⟩
  intro credentials pre call db h
  simp only [OraDBVectorStore_init] at h
  by_cases hcond : ((dictGet credentials "ORACLE_DB_PASSWORD").getD "" = "" ∨
      (dictGet credentials "ORACLE_DB_DSN").getD "" = "")
  · rw [if_pos hcond] at h
    cases h
  · rw [if_neg hcond] at h
    cases h
    refine ⟨rfl, ?_, rfl⟩
    intro p hp
    simp only [collections, List.mem_cons, List.not_mem_nil, or_false] at hp
    rcases hp with h1 | h1 | h1 | h1 <;> subst h1 <;> rfl

/-- C3 witness: the constructor evaluated on a concrete configuration
over an empty database. -/
theorem C3_fixed_collections_witness :
    ({ vector_stores := initStores (fun _ => []), log := [] : OraDB }).vector_stores.map
        Prod.fst = collections.map Prod.fst ∧
    ({ vector_stores := initStores (fun _ => []), log := [] : OraDB }).log = [] :=
  ⟨(C3_fixed_collections.2.2 [("ORACLE_DB_PASSWORD", "pw"), ("ORACLE_DB_DSN", "db_high")]
      (fun _ => []) (ConnectCall.noWallet "ADMIN" "pw" "db_high")
      { vector_stores := initStores (fun _ => []), log := [] } rfl).1,
   (C3_fixed_collections.2.2 [("ORACLE_DB_PASSWORD", "pw"), ("ORACLE_DB_DSN", "db_high")]
      (fun _ => []) (ConnectCall.noWallet "ADMIN" "pw" "db_high")
      { vector_stores := initStores (fun _ => []), log := [] } rfl).2.2⟩

/-- C9: adding an empty chunk list, to any collection name known or
not, returns normally with the state (stores and effect log alike)
unchanged, through the private helper and all four public adders. -/
theorem C9_empty_add_noop (db : OraDB) (newIds : List String)
    (collection_name other_id : String) :
    _add_chunks_to_collection db newIds [] collection_name = .ok db ∧
    add_pdf_chunks db newIds [] other_id = .ok db ∧
    add_web_chunks db newIds [] other_id = .ok db ∧
    add_general_knowledge db newIds [] other_id = .ok db ∧
    add_repo_chunks db newIds [] other_id = .ok db :=
  ⟨rfl, rfl, rfl, rfl, rfl⟩

/-- C10: `__init__` raises `ValueError` before any connection attempt
exactly when the configuration yields an empty-or-missing password or
DSN; a missing username defaults to `ADMIN` and causes no error. -/
theorem C10_init_credential_check (credentials : List (String × String))
    (pre : String → List StoredDoc) :
    ((∃ msg, OraDBVectorStore_init credentials pre = .error msg) ↔
      ((dictGet credentials "ORACLE_DB_PASSWORD").getD "" = "" ∨
       (dictGet credentials "ORACLE_DB_DSN").getD "" = "")) ∧
    (dictGet credentials "ORACLE_DB_USERNAME" = none →
     (dictGet credentials "ORACLE_DB_PASSWORD").getD "" ≠ "" →
     (dictGet credentials "ORACLE_DB_DSN").getD "" ≠ "" →
     ∃ call db, OraDBVectorStore_init credentials pre = .ok (call, db) ∧
       ConnectCall.user call = "ADMIN") := by
  constructor
  · constructor
    · rintro ⟨msg, hmsg⟩
      by_contra hcond
      simp only [OraDBVectorStore_init] at hmsg
      rw [if_neg hcond] at hmsg
      cases hmsg
    · intro hcond
      exact ⟨"Oracle DB credentials not found in config.yaml. " ++
        "Please set ORACLE_DB_USERNAME, ORACLE_DB_PASSWORD, and ORACLE_DB_DSN.",
        by simp only [OraDBVectorStore_init]; rw [if_pos hcond]⟩
  · intro hu hp hd
    have hcond : ¬((dictGet credentials "ORACLE_DB_PASSWORD").getD "" = "" ∨
        (dictGet credentials "ORACLE_DB_DSN").getD "" = "") := by
      push_neg
      exact ⟨hp, hd⟩
    cases hw : dictGet credentials "ORACLE_DB_WALLET_LOCATION" with
    | none =>
      refine ⟨ConnectCall.noWallet "ADMIN"
          ((dictGet credentials "ORACLE_DB_PASSWORD").getD "")
          ((dictGet credentials "ORACLE_DB_DSN").getD ""),
        { vector_stores := initStores pre, log := [] }, ?_, rfl⟩
      simp only [OraDBVectorStore_init]
      rw [if_neg hcond, hw, hu]
      rfl
    | some wp =>
      by_cases hwp : wp = ""
      · subst hwp
        refine ⟨ConnectCall.noWallet "ADMIN"
            ((dictGet credentials "ORACLE_DB_PASSWORD").getD "")
            ((dictGet credentials "ORACLE_DB_DSN").getD ""),
          { vector_stores := initStores pre, log := [] }, ?_, rfl⟩
        simp only [OraDBVectorStore_init]
        rw [if_neg hcond, hw, hu]
        rfl
      · refine ⟨ConnectCall.withWallet "ADMIN"
            ((dictGet credentials "ORACLE_DB_PASSWORD").getD "")
            ((dictGet credentials "ORACLE_DB_DSN").getD "")
            wp wp (dictGet credentials "ORACLE_DB_WALLET_PASSWORD"),
          { vector_stores := initStores pre, log := [] }, ?_, rfl⟩
        simp only [OraDBVectorStore_init]
        rw [if_neg hcond, hw, hu]
        simp [hwp]

/-- C10 witness: the empty configuration raises; a configuration with
only password and DSN connects as `ADMIN`. -/
theorem C10_init_credential_check_witness :
    (∃ msg, OraDBVectorStore_init [] (fun _ => []) = .error msg) ∧
    (∃ call db,
      OraDBVectorStore_init [("ORACLE_DB_PASSWORD", "pw"), ("ORACLE_DB_DSN", "db_high")]
        (fun _ => []) = .ok (call, db) ∧ ConnectCall.user call = "ADMIN") :=
  ⟨(C10_init_credential_check [] (fun _ => [])).1.mpr (Or.inl rfl),
   (C10_init_credential_check
       [("ORACLE_DB_PASSWORD", "pw"), ("ORACLE_DB_DSN", "db_high")]
       (fun _ => [])).2 rfl (by decide) (by decide)⟩

/-- A well-formed store state: the `vector_stores` dict has exactly the
four fixed collection keys, in the order `__init__` declares them. -/
def OraDB.wf (db : OraDB) : Prop :=
  ∃ s1 s2 s3 s4, db.vector_stores =
    [("pdf_documents", s1), ("web_documents", s2),
     ("repository_documents", s3), ("general_knowledge", s4)]

/-- An example pair of rows, inserted in this order. -/
def exDoc1 : StoredDoc := { id := "id-1", text := "first chunk", metadata := [] }

/-- The row inserted after `exDoc1`. -/
def exDoc2 : StoredDoc := { id := "id-2", text := "second chunk", metadata := [] }

/-- Example database contents: the PDF table holds `exDoc1` then
`exDoc2`; all other tables are empty. -/
def exPre : String → List StoredDoc :=
  fun t => if t = "PDFCollection" then [exDoc1, exDoc2] else []

/-- The state `__init__` builds over `exPre`. -/
def exDB : OraDB := { vector_stores := initStores exPre, log := [] }

/-- C4: deletion happens in exactly two ways — with `delete_all` the
backing table is truncated by raw SQL and the `ids` argument is never
consulted; otherwise a non-empty id list removes exactly the rows with
those ids through the handle — and no operation rewrites a stored
chunk in place: every row surviving a delete was already stored
unchanged, and adding chunks keeps the existing rows as an unchanged
prefix. -/
theorem C4_delete_semantics :
    (∀ (db : OraDB) (name : String) (ids1 ids2 : Option (List String)),
      delete_documents db name ids1 true = delete_documents db name ids2 true) ∧
    (∀ (db : OraDB) (name : String) (ids : Option (List String)) (store : OracleVS)
       (tbl : String),
      dictGet db.vector_stores name = some store →
      dictGet collections name = some tbl →
      delete_documents db name ids true =
        .ok { vector_stores := dictSet db.vector_stores name { store with docs := [] },
              log := db.log ++ [Event.sqlExec ("TRUNCATE TABLE " ++ tbl)] }) ∧
    (∀ (db : OraDB) (name : String) (l : List String) (store : OracleVS),
      dictGet db.vector_stores name = some store → l ≠ [] →
      delete_documents db name (some l) false =
        .ok { vector_stores := dictSet db.vector_stores name
                { store with docs := store.docs.filter (fun d => ! l.contains d.id) },
              log := db.log ++ [Event.deleteCall name l] }) ∧
    (∀ (db dbout : OraDB) (name : String) (ids : Option (List String)) (b : Bool),
      delete_documents db name ids b = .ok dbout →
      ∀ (cname : String) (s t : OracleVS),
        dictGet db.vector_stores cname = some s →
        dictGet dbout.vector_stores cname = some t →
        ∀ d ∈ t.docs, d ∈ s.docs) ∧
    (∀ (db dbout : OraDB) (newIds : List String) (chunks : List Chunk) (name : String),
      _add_chunks_to_collection db newIds chunks name = .ok dbout →
      ∀ (cname : String) (s t : OracleVS),
        dictGet db.vector_stores cname = some s →
        dictGet dbout.vector_stores cname = some t →
        t.docs.take s.docs.length = s.docs) := by
  refine ⟨?_, ?_, ?_, ?_, ?_⟩
  · intro db name ids1 ids2
    cases hg : dictGet db.vector_stores name with
    | none => simp [delete_documents, hg]
    | some store => simp [delete_documents, hg]
  · intro db name ids store tbl hs htbl
    simp [delete_documents, hs, htbl]
  · intro db name l store hs hl
    cases l with
    | nil => exact absurd rfl hl
    | cons i is => simp [delete_documents, hs]
  · intro db dbout name ids b h cname s t hs ht d hd
    rw [delete_documents] at h
    split at h
    · cases h
    · rename_i store hg
      split at h
      · split at h
        · rename_i tbl htn
          cases h
          by_cases hc : cname = name
          · subst hc
            rw [dictGet_dictSet_same, hg] at ht
            cases ht
            cases hd
          · rw [dictGet_dictSet_other _ _ _ _ hc, hs] at ht
            cases ht
            exact hd
        · cases h
          rw [hs] at ht
          cases ht
          exact hd
      · split at h
        · rename_i l
          split at h
          · cases h
            rw [hs] at ht
            cases ht
            exact hd
          · cases h
            by_cases hc : cname = name
            · subst hc
              rw [dictGet_dictSet_same, hg] at ht
              cases ht
              rw [hg] at hs
              cases hs
              exact List.mem_of_mem_filter hd
            · rw [dictGet_dictSet_other _ _ _ _ hc, hs] at ht
              cases ht
              exact hd
        · cases h
          rw [hs] at ht
          cases ht
          exact hd
  · intro db dbout newIds chunks name h cname s t hs ht
    rw [_add_chunks_to_collection] at h
    split at h
    · cases h
      rw [hs] at ht
      cases ht
      exact List.take_length s.docs
    · split at h
      · cases h
      · rename_i store hg
        cases h
        by_cases hc : cname = name
        · subst hc
          rw [dictGet_dictSet_same, hg] at ht
          cases ht
          rw [hg] at hs
          cases hs
          exact List.take_left _ _
        · rw [dictGet_dictSet_other _ _ _ _ hc, hs] at ht
          cases ht
          exact List.take_length s.docs

/-- C4 witness: deleting id `id-1` from the example PDF collection
removes exactly that row. -/
theorem C4_delete_semantics_witness :
    delete_documents exDB "pdf_documents" (some ["id-1"]) false =
      .ok { vector_stores := dictSet exDB.vector_stores "pdf_documents"
              { table_name := "PDFCollection",
                distance_strategy := "EUCLIDEAN_DISTANCE", docs := [exDoc2] },
            log := [Event.deleteCall "pdf_documents" ["id-1"]] } := by
  have h := C4_delete_semantics.2.2.1 exDB "pdf_documents" ["id-1"]
      { table_name := "PDFCollection", distance_strategy := "EUCLIDEAN_DISTANCE",
        docs := [exDoc1, exDoc2] } rfl (by simp)
  exact h

/-- An example similarity-search oracle returning one fixed document. -/
def exSearch : SearchFn :=
  fun _ _ _ => [{ page_content := "hello",
                  metadata := [("source", PyVal.VStr "a.pdf")] }]

/-- C5: on a well-formed store, each of the four public query methods
returns exactly the documents the similarity search yields for that
method's own collection, each formatted as a dict whose keys are
exactly `content` and `metadata`. -/
theorem C5_query_results (search : SearchFn) (db : OraDB) (h : OraDB.wf db)
    (query : String) (n_results : Nat) :
    ∃ s1 s2 s3 s4,
      dictGet db.vector_stores "pdf_documents" = some s1 ∧
      query_pdf_collection search db query n_results =
        (search query n_results s1).map (fun doc =>
          [("content", PyVal.VStr doc.page_content),
           ("metadata", PyVal.VDict doc.metadata)]) ∧
      dictGet db.vector_stores "web_documents" = some s2 ∧
      query_web_collection search db query n_results =
        (search query n_results s2).map (fun doc =>
          [("content", PyVal.VStr doc.page_content),
           ("metadata", PyVal.VDict doc.metadata)]) ∧
      dictGet db.vector_stores "general_knowledge" = some s3 ∧
      query_general_collection search db query n_results =
        (search query n_results s3).map (fun doc =>
          [("content", PyVal.VStr doc.page_content),
           ("metadata", PyVal.VDict doc.metadata)]) ∧
      dictGet db.vector_stores "repository_documents" = some s4 ∧
      query_repo_collection search db query n_results =
        (search query n_results s4).map (fun doc =>
          [("content", PyVal.VStr doc.page_content),
           ("metadata", PyVal.VDict doc.metadata)]) ∧
      (∀ r ∈ query_pdf_collection search db query n_results,
        r.map Prod.fst = ["content", "metadata"]) ∧
      (∀ r ∈ query_web_collection search db query n_results,
        r.map Prod.fst = ["content", "metadata"]) ∧
      (∀ r ∈ query_general_collection search db query n_results,
        r.map Prod.fst = ["content", "metadata"]) ∧
      (∀ r ∈ query_repo_collection search db query n_results,
        r.map Prod.fst = ["content", "metadata"]) := by
  obtain ⟨sp, sw, sr, sg, hv⟩ := h
  have h1 : dictGet db.vector_stores "pdf_documents" = some sp := by rw [hv]; rfl
  have h2 : dictGet db.vector_stores "web_documents" = some sw := by rw [hv]; rfl
  have h3 : dictGet db.vector_stores "general_knowledge" = some sg := by rw [hv]; rfl
  have h4 : dictGet db.vector_stores "repository_documents" = some sr := by rw [hv]; rfl
  have hqe : ∀ nm st, dictGet db.vector_stores nm = some st →
      _query_collection search db nm query n_results =
        (search query n_results st).map (fun doc =>
          [("content", PyVal.VStr doc.page_content),
           ("metadata", PyVal.VDict doc.metadata)]) := by
    intro nm st hst
    simp only [_query_collection, hst]
  have hkeys : ∀ nm st, dictGet db.vector_stores nm = some st →
      ∀ r ∈ _query_collection search db nm query n_results,
        r.map Prod.fst = ["content", "metadata"] := by
    intro nm st hst r hr
    rw [hqe nm st hst] at hr
    simp only [List.mem_map] at hr
    obtain ⟨doc, _, rfl⟩ := hr
    rfl
  exact ⟨sp, sw, sg, sr, h1, hqe _ _ h1, h2, hqe _ _ h2, h3, hqe _ _ h3,
    h4, hqe _ _ h4, hkeys _ _ h1, hkeys _ _ h2, hkeys _ _ h3, hkeys _ _ h4⟩

/-- C5 witness: the PDF query evaluated over the example store and the
one-document search oracle. -/
theorem C5_query_results_witness :
    query_pdf_collection exSearch exDB "q" 3 =
      [[("content", PyVal.VStr "hello"),
        ("metadata", PyVal.VDict [("source", PyVal.VStr "a.pdf")])]] := by
  obtain ⟨s1, s2, s3, s4, h1, h2, hrest⟩ :=
    C5_query_results exSearch exDB ⟨_, _, _, _, rfl⟩ "q" 3
  exact h2.trans rfl

/-- C7: in each of the five menu options that take a local file or
directory path (PDF file, PDF directory, URLs file, chunks JSON file,
web-content JSON file), a path that does not exist makes the menu
print an error and return with no subprocess launched. -/
theorem C7_menu_path_validation (fs : FS) (output_file p : String)
    (h : fs p = none) :
    (menu_process_pdfs fs "1" output_file p).launched = [] ∧
    (menu_process_pdfs fs "1" output_file p).errors ≠ [] ∧
    (menu_process_pdfs fs "2" output_file p).launched = [] ∧
    (menu_process_pdfs fs "2" output_file p).errors ≠ [] ∧
    (menu_process_websites fs "2" output_file p).launched = [] ∧
    (menu_process_websites fs "2" output_file p).errors ≠ [] ∧
    (menu_manage_vector_store fs "1" p).launched = [] ∧
    (menu_manage_vector_store fs "1" p).errors ≠ [] ∧
    (menu_manage_vector_store fs "2" p).launched = [] ∧
    (menu_manage_vector_store fs "2" p).errors ≠ [] := by
  refine ⟨?_, ?_, ?_, ?_, ?_, ?_, ?_, ?_, ?_, ?_⟩ <;>
    simp [menu_process_pdfs, menu_process_websites, menu_manage_vector_store, h]

/-- C7 witness: the five options evaluated on an empty filesystem and a
concrete missing path. -/
theorem C7_menu_path_validation_witness :
    (menu_process_pdfs (fun _ => none) "1" "chunks.json" "missing.pdf").launched = [] ∧
    (menu_manage_vector_store (fun _ => none) "1" "missing.json").errors ≠ [] :=
  ⟨(C7_menu_path_validation (fun _ => none) "chunks.json" "missing.pdf" rfl).1,
   (C7_menu_path_validation (fun _ => none) "chunks.json" "missing.json" rfl).2.2.2.2.2.2.2.1⟩

/-- C8: an unknown collection name is treated asymmetrically —
`_query_collection` returns `[]`, `get_collection_count` returns `0`
and `get_latest_chunk` returns the empty dict, all without raising,
while `_add_chunks_to_collection` (on a non-empty chunk list) and
`delete_documents` raise a `ValueError` naming the collection. -/
theorem C8_unknown_collection_asymmetry (search : SearchFn) (db : OraDB)
    (h : OraDB.wf db) (name : String)
    (hn : name ∉ ["pdf_documents", "web_documents", "repository_documents",
                  "general_knowledge"])
    (query : String) (n_results : Nat) (newIds : List String)
    (chunks : List Chunk) (hc : chunks ≠ []) (ids : Option (List String))
    (delete_all : Bool) :
    _query_collection search db name query n_results = [] ∧
    get_collection_count db name = 0 ∧
    get_latest_chunk db name = [] ∧
    _add_chunks_to_collection db newIds chunks name =
      .error ("Collection " ++ name ++ " not found") ∧
    delete_documents db name ids delete_all =
      .error ("Collection " ++ name ++ " not found") := by
  obtain ⟨sp, sw, sr, sg, hv⟩ := h
  simp only [List.mem_cons, List.not_mem_nil, or_false, not_or] at hn
  obtain ⟨h1, h2, h3, h4⟩ := hn
  have hvs : dictGet db.vector_stores name = none := by
    rw [hv]
    simp [dictGet, h1, h2, h3, h4]
  have hcol : dictGet collections name = none := by
    simp [collections, dictGet, h1, h2, h3, h4]
  refine ⟨?_, ?_, ?_, ?_, ?_⟩
  · simp [_query_collection, hvs]
  · simp [get_collection_count, hcol]
  · simp [get_latest_chunk, hcol]
  · cases chunks with
    | nil => exact absurd rfl hc
    | cons c cs => simp [_add_chunks_to_collection, hvs]
  · simp [delete_documents, hvs]

/-- C8 witness: the asymmetry evaluated at the unknown name `bogus`
over the example store. -/
theorem C8_unknown_collection_asymmetry_witness :
    get_collection_count exDB "bogus" = 0 ∧
    _add_chunks_to_collection exDB ["i1"] [{ text := "t", metadata := [] }] "bogus" =
      .error "Collection bogus not found" := by
  have h := C8_unknown_collection_asymmetry exSearch exDB ⟨_, _, _, _, rfl⟩ "bogus"
    (by simp) "q" 3 ["i1"] [{ text := "t", metadata := [] }] (by simp) none false
  exact ⟨h.2.1, h.2.2.2.1⟩

/-- C6 (refuting the claim as stated): `get_latest_chunk` runs `SELECT
text, metadata FROM table WHERE ROWNUM <= 1`, which yields the first
row the table scan produces, not the most recently added one: on the
example PDF collection holding `exDoc1` (inserted first) and then
`exDoc2` (the most recently added row), it returns the pair built from
`exDoc1` and not the one built from `exDoc2`. -/
theorem C6_latest_chunk_not_latest :
    get_latest_chunk exDB "pdf_documents" =
      [("content", PyVal.VStr "first chunk"), ("metadata", PyVal.VDict [])] ∧
    (∃ s, dictGet exDB.vector_stores "pdf_documents" = some s ∧
      s.docs.getLast? = some exDoc2 ∧ exDoc2.text = "second chunk") ∧
    get_latest_chunk exDB "pdf_documents" ≠
      [("content", PyVal.VStr exDoc2.text),
       ("metadata", PyVal.VDict exDoc2.metadata)] := by
  refine ⟨rfl, ⟨_, rfl, rfl, rfl⟩, ?_⟩
  intro hcontr
  have h1 : get_latest_chunk exDB "pdf_documents" =
      [("content", PyVal.VStr "first chunk"), ("metadata", PyVal.VDict [])] := rfl
  rw [h1] at hcontr
  simp [exDoc2] at hcontr

end AgenticRag
